import Mathlib

/-!
Shallow embedding of the statement record-management application
(`src/app/routes/_index.tsx` — the rich-schema `statements` variant,
`src/services/db.server.ts`, `src/SQL/Statements.sql`).

Modelling conventions:
* A submitted form field is `Option String` (`none` = the field is absent,
  i.e. `formData.get` returned `null`).
* JavaScript truthiness on a form value: `null` and `""` are falsy.
* `Number(value)` is modelled by a parameter `pN : String → Option ℚ`
  (`none` = NaN) wrapped so that `Number(null) = 0`; the host's numeric
  grammar is not fixed by the repository, so theorems quantify over `pN`.
* `new Date(s)` / `isNaN(date.getTime())` is modelled by a parameter
  `pD : String → Option JSDate` (`none` = invalid date); `JSDate` carries
  the UTC calendar fields that `toISOString` renders, each rendered
  zero-padded to its fixed width as `toISOString` does for in-range fields.
* The database table is a list of rows; the three SQL templates are the
  only state transformers.  SQL `dp_id = ?` is three-valued: a NULL on
  either side never matches.
-/

/-- A row of the `statements` table (rich schema, eleven columns).
`amount` is `Option ℚ` (`none` models a NaN produced by `Number`);
nullable columns are `Option String`. -/
structure Row where
  dp_id : Option String
  amount : Option ℚ
  deposit_date : Option String
  owner_name : Option String
  depositor_name : Option String
  bank_name : Option String
  reconciliation : Option String
  ref_number : Option String
  deposit_number : Option String
  account_type : Option String
  comment : Option String
  deriving DecidableEq, Repr

/-- The database state: the rows of the `statements` table. -/
abbrev Table := List Row

/-- The form fields the action reads from the request. -/
structure FormData where
  intent : Option String
  dp_id : Option String
  amount : Option String
  old_dp_id : Option String
  deposit_date : Option String
  owner_name : Option String
  depositor_name : Option String
  bank_name : Option String
  reconciliation : Option String
  ref_number : Option String
  deposit_number : Option String
  account_type : Option String
  comment : Option String
  deriving DecidableEq, Repr

/-- JavaScript truthiness of a form value: `null` and `""` are falsy. -/
def jsFalsy : Option String → Bool
  | none => true
  | some s => s == ""

/-- `v.toString()` on a form value; only evaluated after a truthiness
check, so the `none` branch is unreachable in the action. -/
def jsToString : Option String → String
  | none => ""
  | some s => s

/-- `s.trim()` on a JavaScript string: strip leading and trailing
whitespace (the inputs in play only use ASCII whitespace, where the
JavaScript and Lean notions agree). -/
def jsTrim (s : String) : String :=
  ⟨((s.data.dropWhile Char.isWhitespace).reverse.dropWhile Char.isWhitespace).reverse⟩

/-- `Number(v)` on a form value: `Number(null) = 0`; on a string the host
parser `pN` decides (`none` = NaN). -/
def jsNumber (pN : String → Option ℚ) : Option String → Option ℚ
  | none => some 0
  | some s => pN s

/-- The UTC calendar fields of a JavaScript `Date`, as rendered by
`toISOString` (a real `Date` has month 1–12, day 1–31, hour < 24,
minute/second < 60, ms < 1000). -/
structure JSDate where
  year : Nat
  month : Nat
  day : Nat
  hour : Nat
  minute : Nat
  second : Nat
  ms : Nat
  deriving DecidableEq, Repr

/-- Two-digit zero-padded decimal rendering of an in-range field. -/
def pad2 (n : Nat) : String :=
  ⟨[Nat.digitChar (n / 10 % 10), Nat.digitChar (n % 10)]⟩

/-- Three-digit zero-padded decimal rendering of an in-range field. -/
def pad3 (n : Nat) : String :=
  ⟨[Nat.digitChar (n / 100 % 10), Nat.digitChar (n / 10 % 10), Nat.digitChar (n % 10)]⟩

/-- Four-digit zero-padded decimal rendering of an in-range field. -/
def pad4 (n : Nat) : String :=
  ⟨[Nat.digitChar (n / 1000 % 10), Nat.digitChar (n / 100 % 10),
    Nat.digitChar (n / 10 % 10), Nat.digitChar (n % 10)]⟩

/-- `date.toISOString()`: `YYYY-MM-DDTHH:MM:SS.mmmZ`. -/
def toISOString (d : JSDate) : String :=
  pad4 d.year ++ "-" ++ pad2 d.month ++ "-" ++ pad2 d.day ++ "T" ++
    pad2 d.hour ++ ":" ++ pad2 d.minute ++ ":" ++ pad2 d.second ++ "." ++
    pad3 d.ms ++ "Z"

/-- `s.slice(0, n)` on a JavaScript string. -/
def jsSlice (s : String) (n : Nat) : String := ⟨s.data.take n⟩

/-- Replace the first occurrence of `pat` (helper on character lists). -/
def replaceFirstAux (pat rep : List Char) : List Char → List Char
  | [] => []
  | c :: cs =>
    if pat.isPrefixOf (c :: cs) then rep ++ (c :: cs).drop pat.length
    else c :: replaceFirstAux pat rep cs

/-- `s.replace(pat, rep)` with a string pattern in JavaScript replaces only
the first occurrence. -/
def jsReplaceFirst (s pat rep : String) : String :=
  ⟨replaceFirstAux pat.data rep.data s.data⟩

/-- The action's date normalisation:
`depositDate.toISOString().slice(0, 19).replace("T", " ")`. -/
def jsFormatDate (d : JSDate) : String :=
  jsReplaceFirst (jsSlice (toISOString d) 19) "T" " "

/-- The three SQL write templates the action can issue, with their
positional parameters. -/
inductive SqlOp
  /-- `INSERT INTO statements (…) VALUES (?, …, ?)` -/
  | insertRow (r : Row)
  /-- `UPDATE statements SET dp_id = ?, amount = ?, owner_name = ?, …,
  comment = ? WHERE dp_id = ?` (the SET list omits `deposit_date`);
  `newVals.deposit_date` is unused. -/
  | updateRows (newVals : Row) (key : Option String)
  /-- `DELETE FROM statements WHERE dp_id = ?` -/
  | deleteRows (key : Option String)
  deriving DecidableEq, Repr

/-- SQL `dp_id = ?`: NULL on either side never matches. -/
def rowMatches (key : Option String) (r : Row) : Bool :=
  match key, r.dp_id with
  | some k, some d => d == k
  | _, _ => false

/-- Apply the SET list of the UPDATE template: every non-key column except
`deposit_date` is overwritten. -/
def applySet (v : Row) (r : Row) : Row :=
  { r with
    dp_id := v.dp_id
    amount := v.amount
    owner_name := v.owner_name
    depositor_name := v.depositor_name
    bank_name := v.bank_name
    reconciliation := v.reconciliation
    ref_number := v.ref_number
    deposit_number := v.deposit_number
    account_type := v.account_type
    comment := v.comment }

/-- Effect of one SQL write on the table. -/
def applyOp (st : Table) : SqlOp → Table
  | .insertRow r => st ++ [r]
  | .updateRows v k => st.map fun r => if rowMatches k r then applySet v r else r
  | .deleteRows k => st.filter fun r => !rowMatches k r

/-- The JSON payload the action resolves to: `{success: true}` (HTTP 200)
or `{error: msg}` with an explicit status. -/
inductive ActionResponse
  | success
  | err (msg : String) (status : Nat)
  deriving DecidableEq, Repr

/-- The row the INSERT writes on a valid create: the trimmed id,
`Number(amount)`, the normalised date, and the eight descriptive fields
verbatim. -/
def createdRow (pN : String → Option ℚ) (fd : FormData) (d : JSDate) : Row :=
  { dp_id := some (jsTrim (jsToString fd.dp_id))
    amount := jsNumber pN fd.amount
    deposit_date := some (jsFormatDate d)
    owner_name := fd.owner_name
    depositor_name := fd.depositor_name
    bank_name := fd.bank_name
    reconciliation := fd.reconciliation
    ref_number := fd.ref_number
    deposit_number := fd.deposit_number
    account_type := fd.account_type
    comment := fd.comment }

/-- The SET-list parameters of the UPDATE: the submitted `dp_id`
unvalidated and untrimmed, `Number(amount)`, and the descriptive fields
verbatim (`deposit_date` is not in the SET list; the field here is
unused). -/
def updateVals (pN : String → Option ℚ) (fd : FormData) : Row :=
  { dp_id := fd.dp_id
    amount := jsNumber pN fd.amount
    deposit_date := none
    owner_name := fd.owner_name
    depositor_name := fd.depositor_name
    bank_name := fd.bank_name
    reconciliation := fd.reconciliation
    ref_number := fd.ref_number
    deposit_number := fd.deposit_number
    account_type := fd.account_type
    comment := fd.comment }

/-- The `intent === "create"` branch of the action. -/
def createAction (pN : String → Option ℚ) (pD : String → Option JSDate)
    (fd : FormData) (st : Table) : ActionResponse × Table × List SqlOp :=
  if jsFalsy fd.dp_id || (jsToString fd.dp_id).length != 6 then
    (.err "DP ID must be 6 characters" 400, st, [])
  else if jsFalsy fd.amount || (jsNumber pN fd.amount).isNone then
    (.err "Valid amount is required" 400, st, [])
  else if jsFalsy fd.deposit_date then
    (.err "Deposit date is required" 400, st, [])
  else if jsFalsy fd.owner_name || jsFalsy fd.depositor_name ||
      jsFalsy fd.bank_name || jsFalsy fd.reconciliation ||
      jsFalsy fd.ref_number || jsFalsy fd.deposit_number ||
      jsFalsy fd.account_type || jsFalsy fd.comment then
    (.err "All fields are required" 400, st, [])
  else
    match pD (jsToString fd.deposit_date) with
    | none => (.err "Invalid date format" 400, st, [])
    | some d =>
      (.success, applyOp st (.insertRow (createdRow pN fd d)),
        [.insertRow (createdRow pN fd d)])

/-- The `intent === "update"` branch of the action. -/
def updateAction (pN : String → Option ℚ) (fd : FormData) (st : Table) :
    ActionResponse × Table × List SqlOp :=
  (.success, applyOp st (.updateRows (updateVals pN fd) fd.old_dp_id),
    [.updateRows (updateVals pN fd) fd.old_dp_id])

/-- The `intent === "delete"` branch of the action. -/
def deleteAction (fd : FormData) (st : Table) :
    ActionResponse × Table × List SqlOp :=
  if jsFalsy fd.old_dp_id then
    (.err "Missing original DP ID" 400, st, [])
  else
    (.success, applyOp st (.deleteRows fd.old_dp_id), [.deleteRows fd.old_dp_id])

/-- The `action` of `src/app/routes/_index.tsx` (rich-schema variant),
as a function of the host parsers, the submitted form and the table:
returns the JSON payload, the table afterwards, and the SQL writes
issued. -/
def action (pN : String → Option ℚ) (pD : String → Option JSDate)
    (fd : FormData) (st : Table) : ActionResponse × Table × List SqlOp :=
  if fd.intent == some "create" then createAction pN pD fd st
  else if fd.intent == some "update" then updateAction pN fd st
  else if fd.intent == some "delete" then deleteAction fd st
  else (.success, st, [])

/-- The gateway read the loader performs: `SELECT * FROM statements`
returns every row. -/
def selectAll (st : Table) : Table := st

/-- The `loader`: on a gateway failure (`some errMsg`) it logs and returns
`json([])`; otherwise it returns all rows. -/
def loaderRun (failure : Option String) (st : Table) : Table :=
  match failure with
  | some _ => []
  | none => selectAll st

/-! ### Spec-side definitions

These follow the specification's words and are compared against the
code-side definitions above. -/

/-- Spec-side: the submitted date "normalized to `YYYY-MM-DD HH:MM:SS`"
(truncated to whole seconds, no timezone suffix). -/
def specNormalizedDate (d : JSDate) : String :=
  pad4 d.year ++ "-" ++ pad2 d.month ++ "-" ++ pad2 d.day ++ " " ++
    pad2 d.hour ++ ":" ++ pad2 d.minute ++ ":" ++ pad2 d.second

/-- Spec-side: the create preconditions with their error messages, in the
spec's fixed order: id length → amount numeric → date present →
all-fields-present → date parseable.  The `Bool` is `true` when the
precondition FAILS. -/
def createChecks (pN : String → Option ℚ) (pD : String → Option JSDate)
    (fd : FormData) : List (Bool × String) :=
  [(jsFalsy fd.dp_id || (jsToString fd.dp_id).length != 6,
      "DP ID must be 6 characters"),
   (jsFalsy fd.amount || (jsNumber pN fd.amount).isNone,
      "Valid amount is required"),
   (jsFalsy fd.deposit_date, "Deposit date is required"),
   (jsFalsy fd.owner_name || jsFalsy fd.depositor_name ||
      jsFalsy fd.bank_name || jsFalsy fd.reconciliation ||
      jsFalsy fd.ref_number || jsFalsy fd.deposit_number ||
      jsFalsy fd.account_type || jsFalsy fd.comment,
      "All fields are required"),
   ((pD (jsToString fd.deposit_date)).isNone, "Invalid date format")]

/-- Spec-side: the error message of the first failing precondition, if
any. -/
def firstFailure (checks : List (Bool × String)) : Option String :=
  (checks.find? (·.1)).map (·.2)

/-! ### Concrete host-parser instances for witnesses

These instantiate the host parameters `pN`/`pD` on the concrete inputs
the witnesses use, consistently with the JavaScript host on those
inputs. -/

/-- A numeric parser agreeing with `Number` on plain nonempty digit
strings (and returning NaN elsewhere). -/
def samplePN (s : String) : Option ℚ :=
  if s.data ≠ [] ∧ s.data.all Char.isDigit then
    some ((s.data.foldl (fun acc c => 10 * acc + (c.toNat - 48)) 0 : ℕ) : ℚ)
  else none

/-- A date parser agreeing with `new Date` on the one UTC timestamp the
witnesses submit. -/
def samplePD (s : String) : Option JSDate :=
  if s = "2024-03-04T05:06:07.890Z" then some ⟨2024, 3, 4, 5, 6, 7, 890⟩
  else none

/-- A form with every field absent; fixtures override what they need. -/
def blankForm : FormData :=
  { intent := none, dp_id := none, amount := none, old_dp_id := none
    deposit_date := none, owner_name := none, depositor_name := none
    bank_name := none, reconciliation := none, ref_number := none
    deposit_number := none, account_type := none, comment := none }


/-! ### Concrete fixtures for witnesses and counterexamples -/

def unknownIntentForm : FormData := { blankForm with intent := some "unknown" }

def updateOnlyForm : FormData := { blankForm with intent := some "update" }

def emptyIdRow : Row :=
  { dp_id := some "", amount := some 0, deposit_date := none, owner_name := none
    depositor_name := none, bank_name := none, reconciliation := none
    ref_number := none, deposit_number := none, account_type := none, comment := none }

def deleteEmptyKeyForm : FormData :=
  { blankForm with intent := some "delete", old_dp_id := some "" }

def createOnlyForm : FormData := { blankForm with intent := some "create" }

def fullCreateForm (id : String) : FormData :=
  { intent := some "create", dp_id := some id, amount := some "100"
    old_dp_id := none, deposit_date := some "2024-03-04T05:06:07.890Z"
    owner_name := some "Owner", depositor_name := some "Depositor"
    bank_name := some "Bank", reconciliation := some "pending"
    ref_number := some "R1", deposit_number := some "N1"
    account_type := some "checking", comment := some "ok" }

def badAmountForm : FormData :=
  { blankForm with intent := some "create", amount := some "abc" }

def roundTripUpdateForm : FormData :=
  { intent := some "update", dp_id := some "XYZ789", amount := some "250"
    old_dp_id := some "ABC123", deposit_date := none
    owner_name := some "Owner2", depositor_name := some "Depositor2"
    bank_name := some "Bank2", reconciliation := some "reconciled"
    ref_number := some "R2", deposit_number := some "N2"
    account_type := some "savings", comment := some "edited" }

def deleteKeyForm : FormData :=
  { blankForm with intent := some "delete", old_dp_id := some "ABC123" }

def updateMissForm : FormData :=
  { blankForm with intent := some "update", old_dp_id := some "ZZZZ99" }

/-! ### Shared lemmas -/

lemma jsFalsy_eq_false_iff (v : Option String) :
    jsFalsy v = false ↔ ∃ s, v = some s ∧ s ≠ "" := by
  cases v <;> simp [jsFalsy]

lemma digitChar_mod_ten_ne_T (n : Nat) : Nat.digitChar (n % 10) ≠ 'T' := by
  have h : n % 10 < 10 := Nat.mod_lt _ (by decide)
  have key : ∀ m : Fin 10, Nat.digitChar m.1 ≠ 'T' := by decide
  exact key ⟨n % 10, h⟩

lemma replaceFirstAux_single (l₁ l₂ : List Char) (h : 'T' ∉ l₁) :
    replaceFirstAux ['T'] [' '] (l₁ ++ 'T' :: l₂) = l₁ ++ ' ' :: l₂ := by
  induction l₁ with
  | nil => simp [replaceFirstAux, List.isPrefixOf]
  | cons c cs ih =>
    have hc : c ≠ 'T' := fun hcT => h (hcT ▸ List.mem_cons_self c cs)
    have hcs : 'T' ∉ cs := fun hm => h (List.mem_cons_of_mem c hm)
    simp only [List.cons_append, replaceFirstAux]
    rw [if_neg]
    · have := ih hcs
      simp only [List.append_eq] at this ⊢
      rw [this]
    · simp [List.isPrefixOf, Ne.symm hc]

/-- The action's `toISOString().slice(0, 19).replace("T", " ")` produces
exactly the spec's `YYYY-MM-DD HH:MM:SS` truncation. -/
lemma jsFormatDate_eq_specNormalizedDate (d : JSDate) :
    jsFormatDate d = specNormalizedDate d := by
  have hT : 'T' ∉ [Nat.digitChar (d.year / 1000 % 10), Nat.digitChar (d.year / 100 % 10),
      Nat.digitChar (d.year / 10 % 10), Nat.digitChar (d.year % 10), '-',
      Nat.digitChar (d.month / 10 % 10), Nat.digitChar (d.month % 10), '-',
      Nat.digitChar (d.day / 10 % 10), Nat.digitChar (d.day % 10)] := by
    simp only [List.mem_cons, List.not_mem_nil, or_false, not_or]
    exact ⟨Ne.symm (digitChar_mod_ten_ne_T _), Ne.symm (digitChar_mod_ten_ne_T _),
      Ne.symm (digitChar_mod_ten_ne_T _), Ne.symm (digitChar_mod_ten_ne_T _), by decide,
      Ne.symm (digitChar_mod_ten_ne_T _), Ne.symm (digitChar_mod_ten_ne_T _), by decide,
      Ne.symm (digitChar_mod_ten_ne_T _), Ne.symm (digitChar_mod_ten_ne_T _)⟩
  have key := replaceFirstAux_single
    [Nat.digitChar (d.year / 1000 % 10), Nat.digitChar (d.year / 100 % 10),
     Nat.digitChar (d.year / 10 % 10), Nat.digitChar (d.year % 10), '-',
     Nat.digitChar (d.month / 10 % 10), Nat.digitChar (d.month % 10), '-',
     Nat.digitChar (d.day / 10 % 10), Nat.digitChar (d.day % 10)]
    [Nat.digitChar (d.hour / 10 % 10), Nat.digitChar (d.hour % 10), ':',
     Nat.digitChar (d.minute / 10 % 10), Nat.digitChar (d.minute % 10), ':',
     Nat.digitChar (d.second / 10 % 10), Nat.digitChar (d.second % 10)] hT
  exact congrArg String.mk key

lemma action_create {pN pD fd st} (h : fd.intent = some "create") :
    action pN pD fd st = createAction pN pD fd st := by
  simp [action, h]

lemma action_update {pN pD fd st} (h : fd.intent = some "update") :
    action pN pD fd st = updateAction pN fd st := by
  simp [action, h]

lemma action_delete {pN pD fd st} (h : fd.intent = some "delete") :
    action pN pD fd st = deleteAction fd st := by
  simp [action, h]

lemma rowMatches_eq_false {k : String} {r : Row}
    (h : rowMatches (some k) r = false) : r.dp_id ≠ some k := by
  intro hd
  simp [rowMatches, hd] at h

lemma create_success_inv {pN : String → Option ℚ} {pD : String → Option JSDate}
    {fd : FormData} {st : Table}
    (hsucc : (createAction pN pD fd st).1 = .success) :
    ∃ s sd d, fd.dp_id = some s ∧ s.length = 6 ∧
      (jsNumber pN fd.amount).isSome = true ∧
      fd.deposit_date = some sd ∧ pD sd = some d ∧
      createAction pN pD fd st =
        (.success, st ++ [createdRow pN fd d], [.insertRow (createdRow pN fd d)]) := by
  rw [createAction] at hsucc
  by_cases h1 : (jsFalsy fd.dp_id || (jsToString fd.dp_id).length != 6) = true
  · rw [if_pos h1] at hsucc; simp at hsucc
  rw [if_neg h1] at hsucc
  by_cases h2 : (jsFalsy fd.amount || (jsNumber pN fd.amount).isNone) = true
  · rw [if_pos h2] at hsucc; simp at hsucc
  rw [if_neg h2] at hsucc
  by_cases h3 : jsFalsy fd.deposit_date = true
  · rw [if_pos h3] at hsucc; simp at hsucc
  rw [if_neg h3] at hsucc
  by_cases h4 : (jsFalsy fd.owner_name || jsFalsy fd.depositor_name ||
      jsFalsy fd.bank_name || jsFalsy fd.reconciliation ||
      jsFalsy fd.ref_number || jsFalsy fd.deposit_number ||
      jsFalsy fd.account_type || jsFalsy fd.comment) = true
  · rw [if_pos h4] at hsucc; simp at hsucc
  rw [if_neg h4] at hsucc
  rcases hpd : pD (jsToString fd.deposit_date) with _ | d
  · rw [hpd] at hsucc; simp at hsucc
  · have h1b := h1
    have h2b := h2
    have h3b := h3
    simp only [Bool.or_eq_true, not_or, Bool.not_eq_true] at h1 h2 h3
    obtain ⟨hfalsy, hlen⟩ := h1
    obtain ⟨s, hs, -⟩ := (jsFalsy_eq_false_iff fd.dp_id).mp hfalsy
    obtain ⟨sd, hsd, -⟩ := (jsFalsy_eq_false_iff fd.deposit_date).mp h3
    have hamt : (jsNumber pN fd.amount).isSome = true := by
      rcases ho : jsNumber pN fd.amount with _ | q
      · rw [ho] at h2; simp at h2
      · rfl
    refine ⟨s, sd, d, hs, ?_, hamt, hsd, ?_, ?_⟩
    · have hl6 : (jsToString fd.dp_id).length = 6 := by simpa using hlen
      rwa [hs] at hl6
    · rw [hsd] at hpd
      exact hpd
    · rw [createAction, if_neg h1b, if_neg h2b, if_neg h3b, if_neg h4, hpd]
      rfl

/-- Claim C7: a write request whose intent is none of create, update or
delete issues no SQL operation, leaves the table unchanged, and returns
the success payload. -/
theorem C7_unknown_intent_noop (pN : String → Option ℚ) (pD : String → Option JSDate)
    (fd : FormData) (st : Table)
    (h1 : fd.intent ≠ some "create") (h2 : fd.intent ≠ some "update")
    (h3 : fd.intent ≠ some "delete") :
    action pN pD fd st = (.success, st, []) := by
  simp [action, h1, h2, h3]

/-- Witness for C7 at a concrete unknown intent. -/
theorem C7_unknown_intent_noop_witness :
    action samplePN samplePD unknownIntentForm [] = (.success, [], []) :=
  C7_unknown_intent_noop samplePN samplePD unknownIntentForm []
    (by decide) (by decide) (by decide)

/-- Claim C9: when the query behind the read path fails the loader
returns an empty collection (the failure is never propagated); when it
succeeds, all rows of the statements table are returned. -/
theorem C9_loader_fail_open (e : String) (st : Table) :
    loaderRun (some e) st = [] ∧ loaderRun none st = st := ⟨rfl, rfl⟩

/-- Claim C10: the update path performs no validation: every update
request issues exactly one UPDATE carrying the submitted dp_id
unvalidated and untrimmed, an absent amount is written as
Number(null) = 0, and the response is always the success payload (never
an error payload). -/
theorem C10_update_no_validation (pN : String → Option ℚ) (pD : String → Option JSDate)
    (fd : FormData) (st : Table) (h : fd.intent = some "update") :
    action pN pD fd st =
      (.success, applyOp st (.updateRows (updateVals pN fd) fd.old_dp_id),
        [.updateRows (updateVals pN fd) fd.old_dp_id]) ∧
    (updateVals pN fd).dp_id = fd.dp_id ∧
    (fd.amount = none → (updateVals pN fd).amount = some 0) := by
  refine ⟨?_, rfl, ?_⟩
  · rw [action_update h]; rfl
  · intro ha; simp [updateVals, jsNumber, ha]

/-- Witness for C10 at a concrete update request with every field
absent. -/
theorem C10_update_no_validation_witness :
    action samplePN samplePD updateOnlyForm [] =
      (.success, applyOp [] (.updateRows (updateVals samplePN updateOnlyForm) none),
        [.updateRows (updateVals samplePN updateOnlyForm) none]) ∧
    (updateVals samplePN updateOnlyForm).dp_id = none ∧
    (updateOnlyForm.amount = none → (updateVals samplePN updateOnlyForm).amount = some 0) := by
  have := C10_update_no_validation samplePN samplePD updateOnlyForm [] (by decide)
  simpa using this

/-- Claim C6: an update request whose old_dp_id key matches no existing
row leaves the table entirely unchanged and still returns the success
payload rather than an error. -/
theorem C6_update_missing_key_noop (pN : String → Option ℚ) (pD : String → Option JSDate)
    (fd : FormData) (st : Table) (hintent : fd.intent = some "update")
    (hmiss : ∀ r ∈ st, rowMatches fd.old_dp_id r = false) :
    (action pN pD fd st).1 = .success ∧ (action pN pD fd st).2.1 = st := by
  rw [action_update hintent]
  refine ⟨rfl, ?_⟩
  show st.map (fun r => if rowMatches fd.old_dp_id r then applySet (updateVals pN fd) r else r) = st
  have hpt : ∀ r ∈ st,
      (if rowMatches fd.old_dp_id r then applySet (updateVals pN fd) r else r) = r := by
    intro r hr
    rw [hmiss r hr]
    simp
  calc st.map (fun r => if rowMatches fd.old_dp_id r then applySet (updateVals pN fd) r else r)
      = st.map id := List.map_congr_left hpt
    _ = st := List.map_id st

/-- Counterexample to claim C5 as stated: with old_dp_id present as the
empty string and a row whose dp_id is that same empty string (reachable,
since the update path writes dp_id unvalidated), the handler returns the
"Missing original DP ID" error and removes nothing, although the claim
requires the matching row to be removed. -/
theorem C5_counterexample :
    deleteEmptyKeyForm.old_dp_id = some "" ∧
    rowMatches deleteEmptyKeyForm.old_dp_id emptyIdRow = true ∧
    action samplePN samplePD deleteEmptyKeyForm [emptyIdRow] =
      (.err "Missing original DP ID" 400, [emptyIdRow], []) := by
  refine ⟨rfl, by decide, by decide⟩

/-- Claim C5 (amended): if old_dp_id is absent or empty the delete
handler returns the "Missing original DP ID" error (status 400) and no
row is removed; if old_dp_id is present and nonempty, exactly the rows
whose dp_id equals old_dp_id are removed, every other row is unchanged,
and success is returned; a nonempty key matching no row leaves the table
unchanged and still returns success. -/
theorem C5_delete_amended (pN : String → Option ℚ) (pD : String → Option JSDate)
    (fd : FormData) (st : Table) (hintent : fd.intent = some "delete") :
    (jsFalsy fd.old_dp_id = true →
      action pN pD fd st = (.err "Missing original DP ID" 400, st, [])) ∧
    (jsFalsy fd.old_dp_id = false →
      (action pN pD fd st).1 = .success ∧
      (action pN pD fd st).2.1 = st.filter (fun r => !rowMatches fd.old_dp_id r)) ∧
    (jsFalsy fd.old_dp_id = false → (∀ r ∈ st, rowMatches fd.old_dp_id r = false) →
      (action pN pD fd st).2.1 = st) := by
  rw [action_delete hintent]
  refine ⟨fun h => ?_, fun h => ?_, fun h hmiss => ?_⟩
  · rw [deleteAction, if_pos h]
  · rw [deleteAction, if_neg (by simp [h])]
    exact ⟨rfl, rfl⟩
  · rw [deleteAction, if_neg (by simp [h])]
    show st.filter (fun r => !rowMatches fd.old_dp_id r) = st
    refine List.filter_eq_self.mpr ?_
    intro r hr
    rw [hmiss r hr]
    rfl

lemma createAction_err_of_find {pN : String → Option ℚ} {pD : String → Option JSDate}
    {fd : FormData} {st : Table} {m : String}
    (hm : firstFailure (createChecks pN pD fd) = some m) :
    createAction pN pD fd st = (.err m 400, st, []) := by
  unfold firstFailure createChecks at hm
  unfold createAction
  by_cases h1 : (jsFalsy fd.dp_id || (jsToString fd.dp_id).length != 6) = true
  · rw [if_pos h1]
    rw [h1] at hm
    simp only [List.find?_cons, Option.map_some'] at hm
    cases Option.some.inj hm
    rfl
  rw [if_neg h1]
  rw [Bool.not_eq_true] at h1
  rw [h1] at hm
  by_cases h2 : (jsFalsy fd.amount || (jsNumber pN fd.amount).isNone) = true
  · rw [if_pos h2]
    rw [h2] at hm
    simp only [List.find?_cons, Option.map_some'] at hm
    cases Option.some.inj hm
    rfl
  rw [if_neg h2]
  rw [Bool.not_eq_true] at h2
  rw [h2] at hm
  by_cases h3 : jsFalsy fd.deposit_date = true
  · rw [if_pos h3]
    rw [h3] at hm
    simp only [List.find?_cons, Option.map_some'] at hm
    cases Option.some.inj hm
    rfl
  rw [if_neg h3]
  rw [Bool.not_eq_true] at h3
  rw [h3] at hm
  by_cases h4 : (jsFalsy fd.owner_name || jsFalsy fd.depositor_name ||
      jsFalsy fd.bank_name || jsFalsy fd.reconciliation ||
      jsFalsy fd.ref_number || jsFalsy fd.deposit_number ||
      jsFalsy fd.account_type || jsFalsy fd.comment) = true
  · rw [if_pos h4]
    rw [h4] at hm
    simp only [List.find?_cons, Option.map_some'] at hm
    cases Option.some.inj hm
    rfl
  rw [if_neg h4]
  rw [Bool.not_eq_true] at h4
  rw [h4] at hm
  rcases hpd : pD (jsToString fd.deposit_date) with _ | d
  · rw [hpd] at hm
    simp only [List.find?_cons, Option.map_some', Option.isNone_none] at hm
    cases Option.some.inj hm
    rfl
  · rw [hpd] at hm
    simp at hm

lemma createAction_success_of_find_none {pN : String → Option ℚ} {pD : String → Option JSDate}
    {fd : FormData} {st : Table}
    (hn : firstFailure (createChecks pN pD fd) = none) :
    (createAction pN pD fd st).1 = .success := by
  unfold firstFailure createChecks at hn
  simp only [Option.map_eq_none', List.find?_eq_none, List.mem_cons, List.not_mem_nil,
    or_false] at hn
  have h1 := hn _ (Or.inl rfl)
  have h2 := hn _ (Or.inr (Or.inl rfl))
  have h3 := hn _ (Or.inr (Or.inr (Or.inl rfl)))
  have h4 := hn _ (Or.inr (Or.inr (Or.inr (Or.inl rfl))))
  have h5 := hn _ (Or.inr (Or.inr (Or.inr (Or.inr rfl))))
  simp only [Bool.not_eq_true] at h1 h2 h3 h4 h5
  unfold createAction
  rw [if_neg (by simp [h1]), if_neg (by simp [h2]), if_neg (by simp [h3]),
    if_neg (by simp [h4])]
  rcases hpd : pD (jsToString fd.deposit_date) with _ | d
  · rw [hpd] at h5; simp at h5
  · rfl

/-- Claim C2: a create request returns the error of the first failing
precondition in the fixed order id length, amount numeric, date present,
all descriptive fields present, date parseable, as a structured error
payload with status 400 and with no row written; when no precondition
fails the request succeeds. -/
theorem C2_first_failing_precondition (pN : String → Option ℚ)
    (pD : String → Option JSDate) (fd : FormData) (st : Table)
    (hintent : fd.intent = some "create") :
    (∀ m, firstFailure (createChecks pN pD fd) = some m →
      action pN pD fd st = (.err m 400, st, [])) ∧
    (firstFailure (createChecks pN pD fd) = none →
      (action pN pD fd st).1 = .success) := by
  rw [action_create hintent]
  exact ⟨fun m hm => createAction_err_of_find hm,
    fun hn => createAction_success_of_find_none hn⟩

/-- Witness for C2: an all-empty create request fails on the first
check. -/
theorem C2_first_failing_precondition_witness :
    firstFailure (createChecks samplePN samplePD createOnlyForm) =
      some "DP ID must be 6 characters" ∧
    action samplePN samplePD createOnlyForm [] =
      (.err "DP ID must be 6 characters" 400, [], []) :=
  ⟨by decide,
    (C2_first_failing_precondition samplePN samplePD createOnlyForm [] (by decide)).1
      _ (by decide)⟩

/-- Claim C1 (amended): the create dp_id precondition holds exactly when
the submitted dp_id is, before trimming, exactly 6 characters long: an
absent dp_id or one of untrimmed length ≠ 6 yields the validation error
"DP ID must be 6 characters" with no row written, and on a successful
create the stored dp_id is the trimmed submitted id. -/
theorem C1_create_id_validation (pN : String → Option ℚ) (pD : String → Option JSDate)
    (fd : FormData) (st : Table) (hintent : fd.intent = some "create") :
    ((fd.dp_id = none ∨ ∃ s, fd.dp_id = some s ∧ s.length ≠ 6) →
      action pN pD fd st = (.err "DP ID must be 6 characters" 400, st, [])) ∧
    ((∃ s, fd.dp_id = some s ∧ s.length = 6) →
      (action pN pD fd st).1 ≠ .err "DP ID must be 6 characters" 400) ∧
    ((action pN pD fd st).1 = .success →
      ∃ s r, fd.dp_id = some s ∧ s.length = 6 ∧ r.dp_id = some (jsTrim s) ∧
        action pN pD fd st = (.success, st ++ [r], [.insertRow r])) := by
  rw [action_create hintent]
  refine ⟨fun hbad => ?_, fun ⟨s, hs, h6⟩ => ?_, fun hsucc => ?_⟩
  · have h1 : (jsFalsy fd.dp_id || (jsToString fd.dp_id).length != 6) = true := by
      rcases hbad with h | ⟨s, hs, hne⟩
      · rw [h]; rfl
      · rw [hs]
        simp only [jsFalsy, jsToString, Bool.or_eq_true, beq_iff_eq, bne_iff_ne, ne_eq]
        exact Or.inr hne
    rw [createAction, if_pos h1]
  · have hne : s ≠ "" := by
      intro h
      rw [h] at h6
      simp at h6
    have h1 : (jsFalsy fd.dp_id || (jsToString fd.dp_id).length != 6) = false := by
      rw [hs]
      simp [jsFalsy, jsToString, hne, h6]
    rw [createAction, if_neg (by simp [h1])]
    by_cases h2 : (jsFalsy fd.amount || (jsNumber pN fd.amount).isNone) = true
    · rw [if_pos h2]; simp
    rw [if_neg h2]
    by_cases h3 : jsFalsy fd.deposit_date = true
    · rw [if_pos h3]; simp
    rw [if_neg h3]
    by_cases h4 : (jsFalsy fd.owner_name || jsFalsy fd.depositor_name ||
        jsFalsy fd.bank_name || jsFalsy fd.reconciliation ||
        jsFalsy fd.ref_number || jsFalsy fd.deposit_number ||
        jsFalsy fd.account_type || jsFalsy fd.comment) = true
    · rw [if_pos h4]; simp
    rw [if_neg h4]
    rcases hpd : pD (jsToString fd.deposit_date) with _ | d
    · simp
    · simp
  · obtain ⟨s, sd, d, hs, h6, hamt, hsd, hpd, heq⟩ := create_success_inv hsucc
    refine ⟨s, createdRow pN fd d, hs, h6, ?_, heq⟩
    rw [createdRow, hs]
    rfl

/-- Witness for C1 (amended) at a concrete valid create. -/
theorem C1_create_id_validation_witness :
    (((fullCreateForm "ABC123").dp_id = none ∨
        ∃ s, (fullCreateForm "ABC123").dp_id = some s ∧ s.length ≠ 6) →
      action samplePN samplePD (fullCreateForm "ABC123") [] =
        (.err "DP ID must be 6 characters" 400, [], [])) ∧
    ((∃ s, (fullCreateForm "ABC123").dp_id = some s ∧ s.length = 6) →
      (action samplePN samplePD (fullCreateForm "ABC123") []).1 ≠
        .err "DP ID must be 6 characters" 400) ∧
    ((action samplePN samplePD (fullCreateForm "ABC123") []).1 = .success →
      ∃ s r, (fullCreateForm "ABC123").dp_id = some s ∧ s.length = 6 ∧
        r.dp_id = some (jsTrim s) ∧
        action samplePN samplePD (fullCreateForm "ABC123") [] =
          (.success, [] ++ [r], [.insertRow r])) :=
  C1_create_id_validation samplePN samplePD (fullCreateForm "ABC123") [] (by decide)

/-- Counterexample to claim C1 as stated: the submitted dp_id "12345 "
has trimmed length 5 ≠ 6, so the claim demands the validation error and
no row, yet the create succeeds and stores the 5-character id
"12345". -/
theorem C1_counterexample :
    ((jsTrim "12345 ").length ≠ 6) ∧
    (action samplePN samplePD (fullCreateForm "12345 ") []).1 = .success ∧
    (∃ r ∈ (action samplePN samplePD (fullCreateForm "12345 ") []).2.1,
      r.dp_id = some "12345" ∧ "12345".length ≠ 6) := by
  refine ⟨by decide, by decide, ?_⟩
  decide

/-- Counterexample to claim C8 as stated: with an absent dp_id and the
non-numeric amount "abc", the handler returns the dp_id error, not the
claimed "Valid amount is required" error. -/
theorem C8_counterexample :
    badAmountForm.amount = some "abc" ∧ samplePN "abc" = none ∧
    action samplePN samplePD badAmountForm [] =
      (.err "DP ID must be 6 characters" 400, [], []) ∧
    ActionResponse.err "DP ID must be 6 characters" 400 ≠
      ActionResponse.err "Valid amount is required" 400 := by
  decide

/-- Claim C8 (amended): a create request whose amount is absent or does
not parse as a number returns a validation error (status 400) with no
row written; when the dp_id precondition passes, that error is "Valid
amount is required"; a create that succeeds stores Number(amount) as the
row amount. -/
theorem C8_create_amount_validation (pN : String → Option ℚ)
    (pD : String → Option JSDate) (fd : FormData) (st : Table)
    (hintent : fd.intent = some "create") :
    ((fd.amount = none ∨ ∃ s, fd.amount = some s ∧ pN s = none) →
      ∃ m, action pN pD fd st = (.err m 400, st, [])) ∧
    ((∃ s6, fd.dp_id = some s6 ∧ s6.length = 6) →
      (fd.amount = none ∨ ∃ s, fd.amount = some s ∧ pN s = none) →
      action pN pD fd st = (.err "Valid amount is required" 400, st, [])) ∧
    ((action pN pD fd st).1 = .success →
      ∃ r, action pN pD fd st = (.success, st ++ [r], [.insertRow r]) ∧
        r.amount = jsNumber pN fd.amount ∧ (jsNumber pN fd.amount).isSome = true) := by
  rw [action_create hintent]
  have hamtbad : (fd.amount = none ∨ ∃ s, fd.amount = some s ∧ pN s = none) →
      (jsFalsy fd.amount || (jsNumber pN fd.amount).isNone) = true := by
    rintro (h | ⟨s, hs, hns⟩)
    · rw [h]; rfl
    · rw [hs]
      simp only [jsNumber, jsFalsy, Bool.or_eq_true]
      right
      rw [hns]
      rfl
  refine ⟨fun hbad => ?_, fun ⟨s6, hs6, h6⟩ hbad => ?_, fun hsucc => ?_⟩
  · by_cases h1 : (jsFalsy fd.dp_id || (jsToString fd.dp_id).length != 6) = true
    · exact ⟨_, by rw [createAction, if_pos h1]⟩
    · exact ⟨_, by rw [createAction, if_neg h1, if_pos (hamtbad hbad)]⟩
  · have hne : s6 ≠ "" := by
      intro h
      rw [h] at h6
      simp at h6
    have h1 : (jsFalsy fd.dp_id || (jsToString fd.dp_id).length != 6) = false := by
      rw [hs6]
      simp [jsFalsy, jsToString, hne, h6]
    rw [createAction, if_neg (by simp [h1]), if_pos (hamtbad hbad)]
  · obtain ⟨s, sd, d, hs, h6, hamt, hsd, hpd, heq⟩ := create_success_inv hsucc
    exact ⟨createdRow pN fd d, heq, rfl, hamt⟩

/-- Witness for C8 (amended) at a concrete valid create. -/
theorem C8_create_amount_validation_witness :
    (((fullCreateForm "ABC123").amount = none ∨
        ∃ s, (fullCreateForm "ABC123").amount = some s ∧ samplePN s = none) →
      ∃ m, action samplePN samplePD (fullCreateForm "ABC123") [] =
        (.err m 400, [], [])) ∧
    ((∃ s6, (fullCreateForm "ABC123").dp_id = some s6 ∧ s6.length = 6) →
      ((fullCreateForm "ABC123").amount = none ∨
        ∃ s, (fullCreateForm "ABC123").amount = some s ∧ samplePN s = none) →
      action samplePN samplePD (fullCreateForm "ABC123") [] =
        (.err "Valid amount is required" 400, [], [])) ∧
    ((action samplePN samplePD (fullCreateForm "ABC123") []).1 = .success →
      ∃ r, action samplePN samplePD (fullCreateForm "ABC123") [] =
        (.success, [] ++ [r], [.insertRow r]) ∧
        r.amount = jsNumber samplePN (fullCreateForm "ABC123").amount ∧
        (jsNumber samplePN (fullCreateForm "ABC123").amount).isSome = true) :=
  C8_create_amount_validation samplePN samplePD (fullCreateForm "ABC123") [] (by decide)

/-- Claim C3: on a valid create, the stored deposit_date is the
submitted date normalised to YYYY-MM-DD HH:MM:SS (truncated to whole
seconds, no timezone suffix), and a subsequent read returns a row whose
dp_id is the trimmed submitted id and whose stored date equals that
truncation. -/
theorem C3_create_normalizes_date (pN : String → Option ℚ)
    (pD : String → Option JSDate) (fd : FormData) (st : Table)
    (hintent : fd.intent = some "create")
    (hsucc : (action pN pD fd st).1 = .success) :
    ∃ sd d r, fd.deposit_date = some sd ∧ pD sd = some d ∧
      action pN pD fd st = (.success, st ++ [r], [.insertRow r]) ∧
      r.deposit_date = some (specNormalizedDate d) ∧
      r.dp_id = some (jsTrim (jsToString fd.dp_id)) ∧
      r ∈ loaderRun none (action pN pD fd st).2.1 := by
  rw [action_create hintent] at hsucc ⊢
  obtain ⟨s, sd, d, hs, h6, hamt, hsd, hpd, heq⟩ := create_success_inv hsucc
  refine ⟨sd, d, createdRow pN fd d, hsd, hpd, heq, ?_, rfl, ?_⟩
  · show some (jsFormatDate d) = some (specNormalizedDate d)
    rw [jsFormatDate_eq_specNormalizedDate]
  · rw [heq]
    show createdRow pN fd d ∈ loaderRun none (st ++ [createdRow pN fd d])
    simp [loaderRun, selectAll]

/-- Claim C4: after a successful create, an update keyed on the created
id that changes the id leaves some row under the new id and no row under
the old id. -/
theorem C4_round_trip (pN : String → Option ℚ) (pD : String → Option JSDate)
    (fd1 fd2 : FormData) (st : Table) (k' : String)
    (h1 : fd1.intent = some "create")
    (hsucc1 : (action pN pD fd1 st).1 = .success)
    (h2 : fd2.intent = some "update")
    (hk : fd2.old_dp_id = some (jsTrim (jsToString fd1.dp_id)))
    (hnew : fd2.dp_id = some k')
    (hne : k' ≠ jsTrim (jsToString fd1.dp_id)) :
    (∃ r ∈ loaderRun none (action pN pD fd1 st).2.1,
      r.dp_id = some (jsTrim (jsToString fd1.dp_id))) ∧
    (action pN pD fd2 (action pN pD fd1 st).2.1).1 = .success ∧
    (∃ r ∈ loaderRun none (action pN pD fd2 (action pN pD fd1 st).2.1).2.1,
      r.dp_id = some k') ∧
    (∀ r ∈ loaderRun none (action pN pD fd2 (action pN pD fd1 st).2.1).2.1,
      r.dp_id ≠ some (jsTrim (jsToString fd1.dp_id))) := by
  rw [action_create h1] at hsucc1 ⊢
  obtain ⟨s, sd, d, hs, h6, hamt, hsd, hpd, heq⟩ := create_success_inv hsucc1
  rw [heq, action_update h2]
  have hmatch : rowMatches fd2.old_dp_id (createdRow pN fd1 d) = true := by
    rw [hk]
    simp [rowMatches, createdRow]
  refine ⟨⟨createdRow pN fd1 d, by simp [loaderRun, selectAll], rfl⟩, rfl, ?_, ?_⟩
  · simp only [updateAction, loaderRun, selectAll, applyOp]
    refine ⟨applySet (updateVals pN fd2) (createdRow pN fd1 d), ?_, ?_⟩
    · have hmem : createdRow pN fd1 d ∈ st ++ [createdRow pN fd1 d] := by simp
      have hmapped := List.mem_map_of_mem
        (fun r => if rowMatches fd2.old_dp_id r then applySet (updateVals pN fd2) r else r)
        hmem
      simp [hmatch]
    · show (updateVals pN fd2).dp_id = some k'
      rw [updateVals]
      exact hnew
  · intro r hr
    simp only [updateAction, loaderRun, selectAll, applyOp, List.mem_map] at hr
    obtain ⟨r0, hr0mem, hr0⟩ := hr
    by_cases hm : rowMatches fd2.old_dp_id r0 = true
    · rw [← hr0, if_pos hm]
      show (updateVals pN fd2).dp_id ≠ some (jsTrim (jsToString fd1.dp_id))
      rw [updateVals]
      show fd2.dp_id ≠ some (jsTrim (jsToString fd1.dp_id))
      rw [hnew]
      intro hcontra
      exact hne (Option.some.inj hcontra)
    · rw [← hr0, if_neg hm]
      rw [hk] at hm
      exact rowMatches_eq_false (by simpa using hm)

/-- Witness for C3 at a concrete valid create. -/
theorem C3_create_normalizes_date_witness :
    ∃ sd d r, (fullCreateForm "ABC123").deposit_date = some sd ∧
      samplePD sd = some d ∧
      action samplePN samplePD (fullCreateForm "ABC123") [] =
        (.success, [] ++ [r], [.insertRow r]) ∧
      r.deposit_date = some (specNormalizedDate d) ∧
      r.dp_id = some (jsTrim (jsToString (fullCreateForm "ABC123").dp_id)) ∧
      r ∈ loaderRun none (action samplePN samplePD (fullCreateForm "ABC123") []).2.1 :=
  C3_create_normalizes_date samplePN samplePD (fullCreateForm "ABC123") []
    (by decide) (by decide)

/-- Witness for C4: create "ABC123", update it to "XYZ789". -/
theorem C4_round_trip_witness :
    (∃ r ∈ loaderRun none (action samplePN samplePD (fullCreateForm "ABC123") []).2.1,
      r.dp_id = some (jsTrim (jsToString (fullCreateForm "ABC123").dp_id))) ∧
    (action samplePN samplePD roundTripUpdateForm
      (action samplePN samplePD (fullCreateForm "ABC123") []).2.1).1 = .success ∧
    (∃ r ∈ loaderRun none (action samplePN samplePD roundTripUpdateForm
        (action samplePN samplePD (fullCreateForm "ABC123") []).2.1).2.1,
      r.dp_id = some "XYZ789") ∧
    (∀ r ∈ loaderRun none (action samplePN samplePD roundTripUpdateForm
        (action samplePN samplePD (fullCreateForm "ABC123") []).2.1).2.1,
      r.dp_id ≠ some (jsTrim (jsToString (fullCreateForm "ABC123").dp_id))) :=
  C4_round_trip samplePN samplePD (fullCreateForm "ABC123") roundTripUpdateForm [] "XYZ789"
    (by decide) (by decide) (by decide) (by decide) (by decide) (by decide)

/-- Witness for C5 (amended) at a concrete nonempty key. -/
theorem C5_delete_amended_witness :
    (jsFalsy deleteKeyForm.old_dp_id = true →
      action samplePN samplePD deleteKeyForm [emptyIdRow] =
        (.err "Missing original DP ID" 400, [emptyIdRow], [])) ∧
    (jsFalsy deleteKeyForm.old_dp_id = false →
      (action samplePN samplePD deleteKeyForm [emptyIdRow]).1 = .success ∧
      (action samplePN samplePD deleteKeyForm [emptyIdRow]).2.1 =
        [emptyIdRow].filter (fun r => !rowMatches deleteKeyForm.old_dp_id r)) ∧
    (jsFalsy deleteKeyForm.old_dp_id = false →
      (∀ r ∈ [emptyIdRow], rowMatches deleteKeyForm.old_dp_id r = false) →
      (action samplePN samplePD deleteKeyForm [emptyIdRow]).2.1 = [emptyIdRow]) :=
  C5_delete_amended samplePN samplePD deleteKeyForm [emptyIdRow] (by decide)

/-- Witness for C6: updating a key present in no row of a one-row
table. -/
theorem C6_update_missing_key_noop_witness :
    (action samplePN samplePD updateMissForm [emptyIdRow]).1 = .success ∧
    (action samplePN samplePD updateMissForm [emptyIdRow]).2.1 = [emptyIdRow] :=
  C6_update_missing_key_noop samplePN samplePD updateMissForm [emptyIdRow]
    (by decide) (by decide)
